import Mathlib

/-!
Verification of the Electric-Fields-Visualizer backend core: the wire
protocol codec (`src/backend/protocol/Protocol.{h,cpp}`), the session
object (`src/backend/session/Session.{h,cpp}`), the session registry
(`src/backend/session/SessionManager.{h,cpp}`) and the byte-transform
stage (`src/backend/utils/Compression.{h,cpp}`).

Modelling conventions:
* Bytes are `Nat` values (`uint8_t` guarantees them `< 256`; where the
  value matters the encoders produce `% 256` values).
* IEEE-754 `float`/`double` fields are modelled by their bit patterns
  (`Nat < 2^32` / `Nat < 2^64`): the codec only ever `memcpy`s the bit
  pattern and moves its four/eight little-endian bytes, it never
  performs floating-point arithmetic.
* The C++ decoder keeps `(data_, size_, offset_)`; the model keeps the
  not-yet-consumed suffix of the buffer, so the source's bound check
  `offset_ + n > size_` becomes "fewer than `n` bytes remain".
* C++ `std::string` is a byte sequence: string-valued protocol fields
  are `List Nat`.
* Steady-clock time points are `Nat` milliseconds.
-/

namespace EFV

/-! ## Wire protocol codec (`Protocol.h` / `Protocol.cpp`) -/

/-- Message type tags (`enum class MessageType` in `Protocol.h`). -/
def CLIENT_INPUT : Nat := 0x01
def CLIENT_CONTROL : Nat := 0x02
def SERVER_FRAME : Nat := 0x10
def SERVER_STATE : Nat := 0x11
def SERVER_ERROR : Nat := 0x12

/-- Decode failures, one constructor per distinct `std::runtime_error`
message thrown by `ProtocolDecoder` (plus the `Server.cpp` default
branch for an unknown tag). Each constructor names the field kind on
which decoding stopped. -/
inductive DecodeError where
  /-- Source `decodeHeader`: "Invalid message: not enough data" -/
  | headerMissing
  /-- Source `readString`: "Invalid message: string length exceeds buffer" -/
  | stringTooLong
  /-- Source `readFloat`: "Invalid message: not enough data for float" -/
  | floatTruncated
  /-- Source `readDouble`: "Invalid message: not enough data for double" -/
  | doubleTruncated
  /-- Source `readInt32`: "Invalid message: not enough data for int32" -/
  | int32Truncated
  /-- Source `readUInt32`: "Invalid message: not enough data for uint32" -/
  | uint32Truncated
  /-- Source `decodeClientControl`: "Invalid message: not enough data for control" -/
  | controlTruncated
  /-- Source `Server::handleWebSocket` default case: "Unknown message type" -/
  | unknownTag
deriving DecidableEq

/-- Source `ProtocolEncoder::writeUInt32`: four little-endian bytes of a
`uint32_t` value (each `push_back(static_cast<uint8_t>(value >> 8*i))`). -/
def writeUInt32 (v : Nat) : List Nat :=
  [v % 2 ^ 8, v / 2 ^ 8 % 2 ^ 8, v / 2 ^ 16 % 2 ^ 8, v / 2 ^ 24 % 2 ^ 8]

/-- Source `ProtocolEncoder::writeFloat`: the `float` is `memcpy`ed to its
`uint32_t` bit pattern and written as four little-endian bytes; the
model takes the bit pattern directly. -/
def writeFloat (bits : Nat) : List Nat := writeUInt32 bits

/-- Source `ProtocolEncoder::writeDouble`: eight little-endian bytes of the
`double`'s `uint64_t` bit pattern. -/
def writeDouble (bits : Nat) : List Nat :=
  [bits % 2 ^ 8, bits / 2 ^ 8 % 2 ^ 8, bits / 2 ^ 16 % 2 ^ 8,
   bits / 2 ^ 24 % 2 ^ 8, bits / 2 ^ 32 % 2 ^ 8, bits / 2 ^ 40 % 2 ^ 8,
   bits / 2 ^ 48 % 2 ^ 8, bits / 2 ^ 56 % 2 ^ 8]

/-- Source `ProtocolEncoder::writeInt32`: the `int32_t` is written as the four
little-endian bytes of its two's-complement bit pattern
(`static_cast<uint8_t>(value >> 8*i)` = byte `i` of `value mod 2^32`). -/
def writeInt32 (v : Int) : List Nat := writeUInt32 (v % 2 ^ 32).toNat

/-- Source `ProtocolEncoder::writeString`: `uint32_t` byte-length prefix
(`static_cast<uint32_t>(str.length())`) followed by the raw bytes. -/
def writeString (s : List Nat) : List Nat := writeUInt32 s.length ++ s

/-- Source `ProtocolEncoder::encodeFrame`: tag `0x10`, session id string,
`double` simulation time, `uint32` payload length, raw payload bytes. -/
def encodeFrame (sessionId : List Nat) (textureData : List Nat)
    (simulationTimeBits : Nat) : List Nat :=
  SERVER_FRAME ::
    (writeString sessionId ++ writeDouble simulationTimeBits ++
     writeUInt32 textureData.length ++ textureData)

/-- Source `ProtocolEncoder::encodeState`: tag `0x11`, session id string,
`float` time, `int32` width, height, depth. -/
def encodeState (sessionId : List Nat) (timeBits : Nat)
    (width height depth : Int) : List Nat :=
  SERVER_STATE ::
    (writeString sessionId ++ writeFloat timeBits ++ writeInt32 width ++
     writeInt32 height ++ writeInt32 depth)

/-- Source `ProtocolEncoder::encodeError`: tag `0x12`, session id string,
error-message string. -/
def encodeError (sessionId : List Nat) (error : List Nat) : List Nat :=
  SERVER_ERROR :: (writeString sessionId ++ writeString error)

/-- Modelled from the spec: the client-side encoder for `ClientInput`
(tag `0x01`, floats x, y, z, value, `uint32` timestamp — spec section 6
wire-layout table). The backend repository only contains the decoder
(`ProtocolDecoder::decodeClientInput`); the encoder lives in the
frontend, outside `src/`. -/
def encodeClientInput (x y z value : Nat) (timestamp : Nat) : List Nat :=
  CLIENT_INPUT ::
    (writeFloat x ++ writeFloat y ++ writeFloat z ++ writeFloat value ++
     writeUInt32 timestamp)

/-- Modelled from the spec: the client-side encoder for `ClientControl`
(tag `0x02`, `uint8` kind, float parameter — spec section 6 wire-layout
table). The backend repository only contains the decoder
(`ProtocolDecoder::decodeClientControl`). -/
def encodeClientControl (kind : Nat) (parameter : Nat) : List Nat :=
  CLIENT_CONTROL :: (kind % 2 ^ 8) :: writeFloat parameter

/-- Source `ProtocolDecoder::decodeHeader`: fails with "not enough data" when
no byte remains (`offset_ >= size_`), otherwise consumes the tag byte. -/
def decodeHeader : List Nat → Except DecodeError (Nat × List Nat)
  | [] => .error .headerMissing
  | t :: rest => .ok (t, rest)

/-- Source `ProtocolDecoder::readUInt32`: fails when fewer than 4 bytes remain
(`offset_ + 4 > size_`), otherwise recombines the four little-endian
bytes (bitwise-or of shifted `uint8_t`s equals the weighted sum). -/
def readUInt32 : List Nat → Except DecodeError (Nat × List Nat)
  | b0 :: b1 :: b2 :: b3 :: rest =>
      .ok (b0 + b1 * 2 ^ 8 + b2 * 2 ^ 16 + b3 * 2 ^ 24, rest)
  | _ => .error .uint32Truncated

/-- Source `ProtocolDecoder::readFloat`: fails when fewer than 4 bytes remain,
otherwise recombines the little-endian `uint32_t` bit pattern that the
source `memcpy`s into a `float`. -/
def readFloat : List Nat → Except DecodeError (Nat × List Nat)
  | b0 :: b1 :: b2 :: b3 :: rest =>
      .ok (b0 + b1 * 2 ^ 8 + b2 * 2 ^ 16 + b3 * 2 ^ 24, rest)
  | _ => .error .floatTruncated

/-- Source `ProtocolDecoder::readDouble`: fails when fewer than 8 bytes remain,
otherwise recombines the little-endian `uint64_t` bit pattern. -/
def readDouble : List Nat → Except DecodeError (Nat × List Nat)
  | b0 :: b1 :: b2 :: b3 :: b4 :: b5 :: b6 :: b7 :: rest =>
      .ok (b0 + b1 * 2 ^ 8 + b2 * 2 ^ 16 + b3 * 2 ^ 24 + b4 * 2 ^ 32 +
           b5 * 2 ^ 40 + b6 * 2 ^ 48 + b7 * 2 ^ 56, rest)
  | _ => .error .doubleTruncated

/-- Two's-complement reading of a 32-bit pattern, the value the source's
`int32_t` shift-or chain produces. -/
def int32OfBits (bits : Nat) : Int :=
  if bits < 2 ^ 31 then (bits : Int) else (bits : Int) - 2 ^ 32

/-- Source `ProtocolDecoder::readInt32`: fails when fewer than 4 bytes remain,
otherwise recombines the four little-endian bytes into an `int32_t`. -/
def readInt32 : List Nat → Except DecodeError (Int × List Nat)
  | b0 :: b1 :: b2 :: b3 :: rest =>
      .ok (int32OfBits (b0 + b1 * 2 ^ 8 + b2 * 2 ^ 16 + b3 * 2 ^ 24), rest)
  | _ => .error .int32Truncated

/-- Source `ProtocolDecoder::readString`: reads the `uint32_t` length prefix
(failing as `readUInt32` does), then fails with "string length exceeds
buffer" when the declared length exceeds the remaining bytes
(`offset_ + len > size_`), otherwise consumes `len` bytes. -/
def readString (buf : List Nat) : Except DecodeError (List Nat × List Nat) :=
  match readUInt32 buf with
  | .error e => .error e
  | .ok (len, rest) =>
      if rest.length < len then .error .stringTooLong
      else .ok (rest.take len, rest.drop len)

/-- Payload of `ClientInputMessage` (`Protocol.h`): float bit patterns
and a `uint32` timestamp. -/
structure ClientInputMessage where
  x : Nat
  y : Nat
  z : Nat
  value : Nat
  timestamp : Nat
deriving DecidableEq

/-- Payload of `ClientControlMessage` (`Protocol.h`): a `uint8` control
kind (0x01 Pause, 0x02 Resume, 0x03 Reset, 0x04 SetSpeed — the decoder
accepts any byte) and a float-bit-pattern parameter. -/
structure ClientControlMessage where
  kind : Nat
  parameter : Nat
deriving DecidableEq

/-- Source `ProtocolDecoder::decodeClientInput`: four floats then a `uint32`. -/
def decodeClientInput (buf : List Nat) :
    Except DecodeError (ClientInputMessage × List Nat) :=
  match readFloat buf with
  | .error e => .error e
  | .ok (x, r1) =>
    match readFloat r1 with
    | .error e => .error e
    | .ok (y, r2) =>
      match readFloat r2 with
      | .error e => .error e
      | .ok (z, r3) =>
        match readFloat r3 with
        | .error e => .error e
        | .ok (value, r4) =>
          match readUInt32 r4 with
          | .error e => .error e
          | .ok (timestamp, r5) => .ok (⟨x, y, z, value, timestamp⟩, r5)

/-- Source `ProtocolDecoder::decodeClientControl`: fails with "not enough data
for control" when no byte remains for the kind (`offset_ >= size_`),
then reads the kind byte and a float parameter. -/
def decodeClientControl (buf : List Nat) :
    Except DecodeError (ClientControlMessage × List Nat) :=
  match buf with
  | [] => .error .controlTruncated
  | k :: rest =>
    match readFloat rest with
    | .error e => .error e
    | .ok (parameter, r) => .ok (⟨k, parameter⟩, r)

/-- Tagged union over the five wire message variants (spec section 3);
numeric fields carry bit patterns, strings carry their bytes. -/
inductive Message where
  | clientInput (x y z value timestamp : Nat)
  | clientControl (kind parameter : Nat)
  | serverFrame (sessionId : List Nat) (simulationTimeBits : Nat)
      (payload : List Nat)
  | serverState (sessionId : List Nat) (timeBits : Nat)
      (width height depth : Int)
  | serverError (sessionId : List Nat) (message : List Nat)
deriving DecidableEq

/-- Encoder dispatch over the five variants: the three server-side
encoders are `ProtocolEncoder::encodeFrame/encodeState/encodeError`;
the two client-side encoders are modelled from the spec's wire-layout
table. -/
def encodeMessage : Message → List Nat
  | .clientInput x y z value timestamp => encodeClientInput x y z value timestamp
  | .clientControl kind parameter => encodeClientControl kind parameter
  | .serverFrame sessionId simTime payload => encodeFrame sessionId payload simTime
  | .serverState sessionId time w h d => encodeState sessionId time w h d
  | .serverError sessionId msg => encodeError sessionId msg

/-- Modelled from the spec: the client-side decoder for `ServerFrame`
(string sessionId, double simTime, `uint32` payloadLen, payload bytes —
spec section 6; the payload is read exactly like a length-prefixed
string). The backend repository only contains the encoder
(`ProtocolEncoder::encodeFrame`). -/
def decodeServerFrame (buf : List Nat) :
    Except DecodeError (Message × List Nat) :=
  match readString buf with
  | .error e => .error e
  | .ok (sessionId, r1) =>
    match readDouble r1 with
    | .error e => .error e
    | .ok (simTime, r2) =>
      match readString r2 with
      | .error e => .error e
      | .ok (payload, r3) => .ok (.serverFrame sessionId simTime payload, r3)

/-- Modelled from the spec: the client-side decoder for `ServerState`
(string sessionId, float time, `int32` width, height, depth — spec
section 6). The backend repository only contains the encoder
(`ProtocolEncoder::encodeState`). -/
def decodeServerState (buf : List Nat) :
    Except DecodeError (Message × List Nat) :=
  match readString buf with
  | .error e => .error e
  | .ok (sessionId, r1) =>
    match readFloat r1 with
    | .error e => .error e
    | .ok (time, r2) =>
      match readInt32 r2 with
      | .error e => .error e
      | .ok (w, r3) =>
        match readInt32 r3 with
        | .error e => .error e
        | .ok (h, r4) =>
          match readInt32 r4 with
          | .error e => .error e
          | .ok (d, r5) => .ok (.serverState sessionId time w h d, r5)

/-- Modelled from the spec: the client-side decoder for `ServerError`
(string sessionId, string message — spec section 6). The backend
repository only contains the encoder (`ProtocolEncoder::encodeError`). -/
def decodeServerError (buf : List Nat) :
    Except DecodeError (Message × List Nat) :=
  match readString buf with
  | .error e => .error e
  | .ok (sessionId, r1) =>
    match readString r1 with
    | .error e => .error e
    | .ok (msg, r2) => .ok (.serverError sessionId msg, r2)

/-- Whole-message decode: `decodeHeader` then dispatch on the tag, as
`Server::handleWebSocket` does for client messages (its `default`
branch rejects unknown tags); the server-variant branches are the
spec-modelled client-side decoders. -/
def decodeMessage (buf : List Nat) : Except DecodeError Message :=
  match decodeHeader buf with
  | .error e => .error e
  | .ok (tag, rest) =>
    if tag = CLIENT_INPUT then
      match decodeClientInput rest with
      | .error e => .error e
      | .ok (m, _) => .ok (.clientInput m.x m.y m.z m.value m.timestamp)
    else if tag = CLIENT_CONTROL then
      match decodeClientControl rest with
      | .error e => .error e
      | .ok (m, _) => .ok (.clientControl m.kind m.parameter)
    else if tag = SERVER_FRAME then
      match decodeServerFrame rest with
      | .error e => .error e
      | .ok (m, _) => .ok m
    else if tag = SERVER_STATE then
      match decodeServerState rest with
      | .error e => .error e
      | .ok (m, _) => .ok m
    else if tag = SERVER_ERROR then
      match decodeServerError rest with
      | .error e => .error e
      | .ok (m, _) => .ok m
    else .error .unknownTag

/-- Valid field values for a message: bit patterns fit their C++ field
widths and variable-length fields fit the `uint32` length prefix. -/
def Message.Valid : Message → Prop
  | .clientInput x y z value timestamp =>
      x < 2 ^ 32 ∧ y < 2 ^ 32 ∧ z < 2 ^ 32 ∧ value < 2 ^ 32 ∧
      timestamp < 2 ^ 32
  | .clientControl kind parameter => kind < 2 ^ 8 ∧ parameter < 2 ^ 32
  | .serverFrame sessionId simTime payload =>
      sessionId.length < 2 ^ 32 ∧ simTime < 2 ^ 64 ∧ payload.length < 2 ^ 32
  | .serverState sessionId time w h d =>
      sessionId.length < 2 ^ 32 ∧ time < 2 ^ 32 ∧
      -(2 ^ 31) ≤ w ∧ w < 2 ^ 31 ∧ -(2 ^ 31) ≤ h ∧ h < 2 ^ 31 ∧
      -(2 ^ 31) ≤ d ∧ d < 2 ^ 31
  | .serverError sessionId msg =>
      sessionId.length < 2 ^ 32 ∧ msg.length < 2 ^ 32

instance : DecidablePred Message.Valid := by
  intro m
  cases m <;> simp only [Message.Valid] <;> infer_instance

/-! ### Round-trip lemmas for the primitive readers/writers -/

theorem readUInt32_writeUInt32 (v : Nat) (rest : List Nat) (hv : v < 2 ^ 32) :
    readUInt32 (writeUInt32 v ++ rest) = .ok (v, rest) := by
  simp only [writeUInt32, readUInt32, List.cons_append, List.nil_append,
    Except.ok.injEq, Prod.mk.injEq, and_true]
  omega

theorem readFloat_writeFloat (v : Nat) (rest : List Nat) (hv : v < 2 ^ 32) :
    readFloat (writeFloat v ++ rest) = .ok (v, rest) := by
  simp only [writeFloat, writeUInt32, readFloat, List.cons_append,
    List.nil_append, Except.ok.injEq, Prod.mk.injEq, and_true]
  omega

theorem readDouble_writeDouble (v : Nat) (rest : List Nat) (hv : v < 2 ^ 64) :
    readDouble (writeDouble v ++ rest) = .ok (v, rest) := by
  simp only [writeDouble, readDouble, List.cons_append, List.nil_append,
    Except.ok.injEq, Prod.mk.injEq, and_true]
  omega

theorem readInt32_writeInt32 (v : Int) (rest : List Nat)
    (hlo : -(2 ^ 31) ≤ v) (hhi : v < 2 ^ 31) :
    readInt32 (writeInt32 v ++ rest) = .ok (v, rest) := by
  simp only [writeInt32, writeUInt32, readInt32, int32OfBits, List.cons_append,
    List.nil_append, Except.ok.injEq, Prod.mk.injEq, and_true]
  split <;> omega

theorem readString_writeString (s : List Nat) (rest : List Nat)
    (hs : s.length < 2 ^ 32) :
    readString (writeString s ++ rest) = .ok (s, rest) := by
  have h1 : writeString s ++ rest = writeUInt32 s.length ++ (s ++ rest) := by
    simp [writeString]
  rw [h1, readString, readUInt32_writeUInt32 s.length (s ++ rest) hs]
  simp

theorem readFloat_writeFloat_nil (v : Nat) (hv : v < 2 ^ 32) :
    readFloat (writeFloat v) = .ok (v, []) := by
  have h := readFloat_writeFloat v [] hv
  simpa using h

theorem readUInt32_writeUInt32_nil (v : Nat) (hv : v < 2 ^ 32) :
    readUInt32 (writeUInt32 v) = .ok (v, []) := by
  have h := readUInt32_writeUInt32 v [] hv
  simpa using h

theorem readInt32_writeInt32_nil (v : Int) (hlo : -(2 ^ 31) ≤ v)
    (hhi : v < 2 ^ 31) : readInt32 (writeInt32 v) = .ok (v, []) := by
  have h := readInt32_writeInt32 v [] hlo hhi
  simpa using h

theorem readString_writeString_nil (s : List Nat) (hs : s.length < 2 ^ 32) :
    readString (writeString s) = .ok (s, []) := by
  have h := readString_writeString s [] hs
  simpa using h

/-- Decoding the bytes produced by encoding any valid message restores
the message: `decode(encode(m)) = m` for every variant, including empty
strings and zero-length payloads (claim C1). The server-side halves are
the source encoders/decoders; the client-side halves are modelled from
the spec's wire-layout table. -/
theorem claim1_roundtrip (m : Message) (h : m.Valid) :
    decodeMessage (encodeMessage m) = .ok m := by
  cases m with
  | clientInput x y z value timestamp =>
    obtain ⟨hx, hy, hz, hv, ht⟩ := h
    simp [encodeMessage, encodeClientInput, decodeMessage, decodeHeader,
      CLIENT_INPUT, decodeClientInput, List.append_assoc,
      readFloat_writeFloat _ _ hx, readFloat_writeFloat _ _ hy,
      readFloat_writeFloat _ _ hz, readFloat_writeFloat _ _ hv,
      readUInt32_writeUInt32_nil _ ht]
  | clientControl kind parameter =>
    obtain ⟨hk, hp⟩ := h
    have hk' : kind % 2 ^ 8 = kind := Nat.mod_eq_of_lt hk
    simp [encodeMessage, encodeClientControl, decodeMessage, decodeHeader,
      CLIENT_INPUT, CLIENT_CONTROL, decodeClientControl,
      readFloat_writeFloat_nil _ hp, hk']
    omega
  | serverFrame sessionId simTime payload =>
    obtain ⟨hsid, hst, hp⟩ := h
    have h1 : writeString sessionId ++ writeDouble simTime ++
        writeUInt32 payload.length ++ payload =
        writeString sessionId ++ (writeDouble simTime ++ writeString payload) := by
      simp [writeString]
    simp only [encodeMessage, encodeFrame, h1]
    simp [decodeMessage, decodeHeader, CLIENT_INPUT, CLIENT_CONTROL,
      SERVER_FRAME, decodeServerFrame, List.append_assoc,
      readString_writeString _ _ hsid, readDouble_writeDouble _ _ hst,
      readString_writeString_nil _ hp]
  | serverState sessionId time w h' d =>
    obtain ⟨hsid, ht, hw1, hw2, hh1, hh2, hd1, hd2⟩ := h
    simp [encodeMessage, encodeState, decodeMessage, decodeHeader,
      CLIENT_INPUT, CLIENT_CONTROL, SERVER_FRAME, SERVER_STATE,
      decodeServerState, List.append_assoc,
      readString_writeString _ _ hsid, readFloat_writeFloat _ _ ht,
      readInt32_writeInt32 _ _ hw1 hw2, readInt32_writeInt32 _ _ hh1 hh2,
      readInt32_writeInt32_nil _ hd1 hd2]
  | serverError sessionId msg =>
    obtain ⟨hsid, hmsg⟩ := h
    simp [encodeMessage, encodeError, decodeMessage, decodeHeader,
      CLIENT_INPUT, CLIENT_CONTROL, SERVER_FRAME, SERVER_STATE, SERVER_ERROR,
      decodeServerError, List.append_assoc,
      readString_writeString _ _ hsid, readString_writeString_nil _ hmsg]

/-- Witness for C1: a concrete round trip through every variant,
including an empty string and a zero-length payload. -/
theorem claim1_roundtrip_witness :
    (Message.serverFrame [] 42 []).Valid ∧
    decodeMessage (encodeMessage (Message.serverFrame [] 42 [])) =
      .ok (Message.serverFrame [] 42 []) ∧
    decodeMessage (encodeMessage (Message.clientInput 1 2 3 4 5)) =
      .ok (Message.clientInput 1 2 3 4 5) ∧
    decodeMessage (encodeMessage (Message.clientControl 4 77)) =
      .ok (Message.clientControl 4 77) ∧
    decodeMessage (encodeMessage (Message.serverState [97] 9 128 128 128)) =
      .ok (Message.serverState [97] 9 128 128 128) ∧
    decodeMessage (encodeMessage (Message.serverError [97] [])) =
      .ok (Message.serverError [97] []) :=
  ⟨by decide,
   claim1_roundtrip _ (by decide),
   claim1_roundtrip _ (by decide),
   claim1_roundtrip _ (by decide),
   claim1_roundtrip _ (by decide),
   claim1_roundtrip _ (by decide)⟩

/-! ### Exact characterization of decode failures (claim C2) -/

/-- Little-endian value of the first four bytes of a buffer (the length
a string read at this position would declare); `0` when fewer than four
bytes remain. -/
def declaredLen : List Nat → Nat
  | b0 :: b1 :: b2 :: b3 :: _ => b0 + b1 * 2 ^ 8 + b2 * 2 ^ 16 + b3 * 2 ^ 24
  | _ => 0

theorem readUInt32_eq (buf : List Nat) :
    readUInt32 buf = if 4 ≤ buf.length then
      .ok (declaredLen buf, buf.drop 4) else .error .uint32Truncated := by
  rcases buf with _ | ⟨b0, _ | ⟨b1, _ | ⟨b2, _ | ⟨b3, rest⟩⟩⟩⟩ <;>
    simp [readUInt32, declaredLen]

theorem readFloat_eq (buf : List Nat) :
    readFloat buf = if 4 ≤ buf.length then
      .ok (declaredLen buf, buf.drop 4) else .error .floatTruncated := by
  rcases buf with _ | ⟨b0, _ | ⟨b1, _ | ⟨b2, _ | ⟨b3, rest⟩⟩⟩⟩ <;>
    simp [readFloat, declaredLen]

theorem readInt32_eq (buf : List Nat) :
    readInt32 buf = if 4 ≤ buf.length then
      .ok (int32OfBits (declaredLen buf), buf.drop 4) else
      .error .int32Truncated := by
  rcases buf with _ | ⟨b0, _ | ⟨b1, _ | ⟨b2, _ | ⟨b3, rest⟩⟩⟩⟩ <;>
    simp [readInt32, declaredLen]

theorem readDouble_error_iff (buf : List Nat) :
    readDouble buf = .error .doubleTruncated ↔ buf.length < 8 := by
  rcases buf with _ | ⟨b0, _ | ⟨b1, _ | ⟨b2, _ | ⟨b3, _ | ⟨b4, _ | ⟨b5,
    _ | ⟨b6, _ | ⟨b7, rest⟩⟩⟩⟩⟩⟩⟩⟩ <;> simp [readDouble]

theorem readDouble_isOk_iff (buf : List Nat) :
    (readDouble buf).isOk ↔ 8 ≤ buf.length := by
  rcases buf with _ | ⟨b0, _ | ⟨b1, _ | ⟨b2, _ | ⟨b3, _ | ⟨b4, _ | ⟨b5,
    _ | ⟨b6, _ | ⟨b7, rest⟩⟩⟩⟩⟩⟩⟩⟩ <;>
    simp [readDouble, Except.isOk, Except.toBool]

theorem readString_eq (buf : List Nat) :
    readString buf = if 4 ≤ buf.length then
      (if buf.length - 4 < declaredLen buf then .error .stringTooLong
       else .ok ((buf.drop 4).take (declaredLen buf),
                 (buf.drop 4).drop (declaredLen buf)))
      else .error .uint32Truncated := by
  rw [readString, readUInt32_eq]
  by_cases h1 : 4 ≤ buf.length
  · rw [if_pos h1, if_pos h1]
    simp [List.length_drop]
  · rw [if_neg h1, if_neg h1]

theorem decodeClientInput_eq (buf : List Nat) :
    decodeClientInput buf =
      if 20 ≤ buf.length then
        .ok (⟨declaredLen buf, declaredLen (buf.drop 4),
              declaredLen (buf.drop 8), declaredLen (buf.drop 12),
              declaredLen (buf.drop 16)⟩, buf.drop 20)
      else if 16 ≤ buf.length then .error .uint32Truncated
      else .error .floatTruncated := by
  rcases buf with _|⟨a0,_|⟨a1,_|⟨a2,_|⟨a3,_|⟨a4,_|⟨a5,_|⟨a6,_|⟨a7,_|⟨a8,
    _|⟨a9,_|⟨a10,_|⟨a11,_|⟨a12,_|⟨a13,_|⟨a14,_|⟨a15,_|⟨a16,_|⟨a17,_|⟨a18,
    _|⟨a19,rest⟩⟩⟩⟩⟩⟩⟩⟩⟩⟩⟩⟩⟩⟩⟩⟩⟩⟩⟩⟩ <;>
    simp [decodeClientInput, readFloat, readUInt32, declaredLen]

theorem decodeClientControl_eq (buf : List Nat) :
    decodeClientControl buf =
      if 5 ≤ buf.length then
        .ok (⟨buf.getD 0 0, declaredLen (buf.drop 1)⟩, buf.drop 5)
      else if 1 ≤ buf.length then .error .floatTruncated
      else .error .controlTruncated := by
  rcases buf with _|⟨a0,_|⟨a1,_|⟨a2,_|⟨a3,_|⟨a4,rest⟩⟩⟩⟩⟩ <;>
    simp [decodeClientControl, readFloat, declaredLen]

/-- Exact decode-failure conditions (claim C2): for every input buffer,
each decoding primitive fails precisely when the header tag is missing
(buffer shorter than one byte), a declared string length exceeds the
remaining buffer, or the remaining bytes are insufficient for the
fixed-width field being read (4 bytes for float/int32/uint32, 8 for
double, 1 for the control kind); the `DecodeError` constructor names
the field on which decoding stopped, mirroring the distinct source
error messages. On success exactly the field's bytes are consumed (the
returned rest is the corresponding `drop` of the input), so decoding
never reads past the buffer end and never silently truncates. -/
theorem claim2_decode_failures : ∀ buf : List Nat,
    (decodeHeader buf = .error .headerMissing ↔ buf.length < 1) ∧
    ((decodeHeader buf).isOk ↔ 1 ≤ buf.length) ∧
    (readFloat buf = .error .floatTruncated ↔ buf.length < 4) ∧
    ((readFloat buf).isOk ↔ 4 ≤ buf.length) ∧
    (readDouble buf = .error .doubleTruncated ↔ buf.length < 8) ∧
    ((readDouble buf).isOk ↔ 8 ≤ buf.length) ∧
    (readInt32 buf = .error .int32Truncated ↔ buf.length < 4) ∧
    ((readInt32 buf).isOk ↔ 4 ≤ buf.length) ∧
    (readUInt32 buf = .error .uint32Truncated ↔ buf.length < 4) ∧
    ((readUInt32 buf).isOk ↔ 4 ≤ buf.length) ∧
    (readString buf = .error .uint32Truncated ↔ buf.length < 4) ∧
    (readString buf = .error .stringTooLong ↔
      4 ≤ buf.length ∧ buf.length - 4 < declaredLen buf) ∧
    ((readString buf).isOk ↔
      4 ≤ buf.length ∧ declaredLen buf ≤ buf.length - 4) ∧
    (decodeClientInput buf = .error .floatTruncated ↔ buf.length < 16) ∧
    (decodeClientInput buf = .error .uint32Truncated ↔
      16 ≤ buf.length ∧ buf.length < 20) ∧
    ((decodeClientInput buf).isOk ↔ 20 ≤ buf.length) ∧
    ((decodeClientInput buf).toOption.map Prod.snd =
      if 20 ≤ buf.length then some (buf.drop 20) else none) ∧
    (decodeClientControl buf = .error .controlTruncated ↔ buf.length < 1) ∧
    (decodeClientControl buf = .error .floatTruncated ↔
      1 ≤ buf.length ∧ buf.length < 5) ∧
    ((decodeClientControl buf).isOk ↔ 5 ≤ buf.length) ∧
    ((decodeClientControl buf).toOption.map Prod.snd =
      if 5 ≤ buf.length then some (buf.drop 5) else none) := by
  intro buf
  refine ⟨?_, ?_, ?_, ?_, readDouble_error_iff buf, readDouble_isOk_iff buf,
    ?_, ?_, ?_, ?_, ?_, ?_, ?_, ?_, ?_, ?_, ?_, ?_, ?_, ?_, ?_⟩
  · rcases buf with _ | ⟨t, rest⟩ <;> simp [decodeHeader]
  · rcases buf with _ | ⟨t, rest⟩ <;>
      simp [decodeHeader, Except.isOk, Except.toBool]
  · rw [readFloat_eq]; split_ifs <;> simp_all <;> omega
  · rw [readFloat_eq]; split_ifs <;>
      simp_all [Except.isOk, Except.toBool]
  · rw [readInt32_eq]; split_ifs <;> simp_all <;> omega
  · rw [readInt32_eq]; split_ifs <;>
      simp_all [Except.isOk, Except.toBool]
  · rw [readUInt32_eq]; split_ifs <;> simp_all <;> omega
  · rw [readUInt32_eq]; split_ifs <;>
      simp_all [Except.isOk, Except.toBool]
  · rw [readString_eq]; split_ifs <;> simp_all <;> omega
  · rw [readString_eq]; split_ifs <;> simp_all <;> omega
  · rw [readString_eq]; split_ifs <;>
      simp_all [Except.isOk, Except.toBool] <;> omega
  · rw [decodeClientInput_eq]; split_ifs <;> simp_all <;> omega
  · rw [decodeClientInput_eq]; split_ifs <;> simp_all <;> omega
  · rw [decodeClientInput_eq]; split_ifs <;>
      simp_all [Except.isOk, Except.toBool] <;> omega
  · rw [decodeClientInput_eq]; split_ifs <;>
      simp_all [Except.toOption] <;> omega
  · rcases buf with _|⟨a0,_|⟨a1,_|⟨a2,_|⟨a3,_|⟨a4,rest⟩⟩⟩⟩⟩ <;>
      simp [decodeClientControl, readFloat] <;> omega
  · rw [decodeClientControl_eq]; split_ifs <;> simp_all <;> omega
  · rw [decodeClientControl_eq]; split_ifs <;>
      simp_all [Except.isOk, Except.toBool] <;> omega
  · rw [decodeClientControl_eq]; split_ifs <;>
      simp_all [Except.toOption] <;> omega

/-! ## Field Solver (`FDTD3D.h` / `FDTD3D.cpp`)

The numerical kernels (electric/magnetic field stepping, source
injection/decay) are executed by `VulkanManager`, whose compute entry
points are stubs in the source and are declared out of scope by the
spec (sections 1 and 6). The model therefore records the observables
the core interacts with: the grid dimensions, how many `step()` calls
have been performed (`time_` advances by `dt_` per step), the sources
forwarded by `addSource`, and the sizes of the field snapshots. Field
snapshot contents are opaque to the core (it only copies the bytes), so
they are modelled as zero bit patterns of the correct length. -/

structure FDTD3D where
  width : Int
  height : Int
  depth : Int
  /-- Number of `step()` calls so far; `time_ = stepCount * dt_`. -/
  stepCount : Nat
  /-- Raw `(x, y, z, value)` float bit patterns forwarded to `addSource`. -/
  sources : List (Nat × Nat × Nat × Nat)
deriving DecidableEq

/-- Source `FDTD3D::FDTD3D` + `FDTD3D::initialize`: stores the grid dimensions
and allocates the device buffers; `time_` starts at `0.0`. -/
def FDTD3D.init (width height depth : Int) : FDTD3D :=
  ⟨width, height, depth, 0, []⟩

/-- Source `FDTD3D::step`: dispatches the (out-of-scope) kernels and advances
`time_` by `dt_`. -/
def FDTD3D.step (sim : FDTD3D) : FDTD3D :=
  { sim with stepCount := sim.stepCount + 1 }

/-- Source `FDTD3D::addSource`: forwards the perturbation to the device source
buffer (the grid-coordinate conversion happens inside the out-of-scope
kernel dispatch). -/
def FDTD3D.addSource (sim : FDTD3D) (x y z value : Nat) : FDTD3D :=
  { sim with sources := (x, y, z, value) :: sim.sources }

/-- Snapshot size `width_ * height_ * depth_ * 3` (three float
components per cell), as computed in `FDTD3D::getElectricField` and
`Session::initialize`. -/
def FDTD3D.texSize (sim : FDTD3D) : Nat :=
  (sim.width * sim.height * sim.depth * 3).toNat

/-- Source `FDTD3D::getElectricField`: resizes the output to `texSize` floats
and copies the device buffer; contents are produced by the out-of-scope
kernels, modelled as zero bit patterns. -/
def FDTD3D.getElectricField (sim : FDTD3D) : List Nat :=
  List.replicate sim.texSize 0

/-- Source `FDTD3D::getMagneticField`: same shape as `getElectricField`. -/
def FDTD3D.getMagneticField (sim : FDTD3D) : List Nat :=
  List.replicate sim.texSize 0

/-! ## Session (`Session.h` / `Session.cpp`) -/

/-- Source `Session::SESSION_TIMEOUT = std::chrono::minutes(30)`, in the
model's millisecond time units. -/
def SESSION_TIMEOUT : Nat := 30 * 60 * 1000

structure Session where
  sessionId : String
  /-- Source `std::unique_ptr<FDTD3D> simulation_`; `none` until `initialize`. -/
  simulation : Option FDTD3D
  hasNewFrame : Bool
  needsUpdate : Bool
  lastActivity : Nat
  electricFieldBuffer : List Nat
  magneticFieldBuffer : List Nat
deriving DecidableEq

/-- Source `Session::Session`: `hasNewFrame_ = false`, `needsUpdate_ = true`,
`lastActivity_ = now`, no solver yet. -/
def Session.new (sessionId : String) (now : Nat) : Session :=
  ⟨sessionId, none, false, true, now, [], []⟩

/-- Source `Session::initialize`: constructs the solver and resizes both frame
buffers to `width * height * depth * 3` zero floats. -/
def Session.initGrid (s : Session) (width height depth : Int) : Session :=
  { s with
    simulation := some (FDTD3D.init width height depth)
    electricFieldBuffer := List.replicate (width * height * depth * 3).toNat 0
    magneticFieldBuffer := List.replicate (width * height * depth * 3).toNat 0 }

/-- Source `Session::step`: no-op without a solver; otherwise one solver step,
`hasNewFrame_ = true`, `lastActivity_ = now`. -/
def Session.step (s : Session) (now : Nat) : Session :=
  match s.simulation with
  | none => s
  | some sim =>
      { s with simulation := some sim.step, hasNewFrame := true,
               lastActivity := now }

/-- Source `Session::handleInput`: no-op without a solver; otherwise forwards
the perturbation to the solver and refreshes `lastActivity_`. -/
def Session.handleInput (s : Session) (x y z value : Nat) (now : Nat) :
    Session :=
  match s.simulation with
  | none => s
  | some sim =>
      { s with simulation := some (sim.addSource x y z value),
               lastActivity := now }

/-- Little-endian byte serialization of a float array, as the two
`memcpy`s in `Session::getFrameData` produce. -/
def floatsToBytes : List Nat → List Nat
  | [] => []
  | f :: rest => writeFloat f ++ floatsToBytes rest

/-- Source `Session::getFrameData`: empty payload when there is no solver or
no pending frame; otherwise pulls both snapshots into the session's
buffers and returns electric bytes followed by magnetic bytes. Returns
the payload together with the mutated session. -/
def Session.getFrameData (s : Session) : List Nat × Session :=
  match s.simulation with
  | none => ([], s)
  | some sim =>
      if s.hasNewFrame then
        (floatsToBytes sim.getElectricField ++
           floatsToBytes sim.getMagneticField,
         { s with electricFieldBuffer := sim.getElectricField,
                  magneticFieldBuffer := sim.getMagneticField })
      else ([], s)

/-- Source `Session::markFrameSent`: clears `hasNewFrame_`. -/
def Session.markFrameSent (s : Session) : Session :=
  { s with hasNewFrame := false }

/-- Source `Session::update`: steps once and clears `needsUpdate_` when the
flag is set, otherwise does nothing. -/
def Session.update (s : Session) (now : Nat) : Session :=
  if s.needsUpdate then { s.step now with needsUpdate := false } else s

/-- Source `Session::isExpired`: `now - lastActivity_ > SESSION_TIMEOUT` (the
signed chrono duration comparison). -/
def Session.isExpired (s : Session) (now : Nat) : Bool :=
  (SESSION_TIMEOUT : Int) < (now : Int) - (s.lastActivity : Int)

/-- Solver step count observed through the session (0 when the solver
was never initialized). -/
def Session.solverSteps (s : Session) : Nat :=
  match s.simulation with
  | none => 0
  | some sim => sim.stepCount

/-! ## Session registry (`SessionManager.h` / `SessionManager.cpp`)

Connections (`WebSocketType *`) are modelled as `Nat` handles. The
three `std::unordered_map`s are modelled as finitely-mutated lookup
functions; every registry operation mutates a map pointwise exactly as
the source's `operator[]`, `erase` and `find` do, and the source's
iteration-based sweeps are pointwise because each session's treatment
depends only on that session. `generateSessionId` draws from
`std::random_device`, so the fresh id is a parameter of `createSession`
in the model. -/

abbrev Conn := Nat

/-- Map update: `m[k] = v` (for `some`) or `m.erase(k)` (for `none`). -/
def fupd {K V : Type} [DecidableEq K] (m : K → Option V) (k : K)
    (v : Option V) : K → Option V :=
  fun q => if q = k then v else m q

structure SessionManager where
  connectionToSession : Conn → Option String
  sessions : String → Option Session
  sessionToConnection : String → Option Conn

/-- Source `SessionManager::SessionManager`: all three maps empty. -/
def emptyManager : SessionManager :=
  ⟨fun _ => none, fun _ => none, fun _ => none⟩

/-- Source `SessionManager::createSession`: constructs a session, initializes
it with the default 128x128x128 grid, and inserts it into all three
maps. The randomly generated id is the `newId` parameter. -/
def SessionManager.createSession (m : SessionManager) (ws : Conn)
    (newId : String) (now : Nat) : SessionManager :=
  { connectionToSession := fupd m.connectionToSession ws (some newId)
    sessions :=
      fupd m.sessions newId (some ((Session.new newId now).initGrid 128 128 128))
    sessionToConnection := fupd m.sessionToConnection newId (some ws) }

/-- Source `SessionManager::removeSession`: looks the connection up and, when
bound, erases the binding from all three maps; no-op otherwise. -/
def SessionManager.removeSession (m : SessionManager) (ws : Conn) :
    SessionManager :=
  match m.connectionToSession ws with
  | none => m
  | some sid =>
      { connectionToSession := fupd m.connectionToSession ws none
        sessions := fupd m.sessions sid none
        sessionToConnection := fupd m.sessionToConnection sid none }

/-- Source `SessionManager::getSessionId`: read-only lookup. -/
def SessionManager.getSessionId (m : SessionManager) (ws : Conn) :
    Option String :=
  m.connectionToSession ws

/-- Source `SessionManager::handleInput`: forwards to the named session's
`handleInput`; no-op for an unknown id. -/
def SessionManager.handleInput (m : SessionManager) (sid : String)
    (input : ClientInputMessage) (now : Nat) : SessionManager :=
  match m.sessions sid with
  | none => m
  | some s =>
      { m with sessions := (fupd m.sessions sid
          (some (s.handleInput input.x input.y input.z input.value now))) }

/-- Source `SessionManager::handleControl`: looks the session up and — the
source's body handles no control types — changes nothing. -/
def SessionManager.handleControl (m : SessionManager) (sid : String)
    (control : ClientControlMessage) : SessionManager :=
  match m.sessions sid with
  | none => m
  | some _ => m

/-- Source `SessionManager::cleanupExpiredSessions`: erases every expired
session from `sessions_` and `sessionToConnection_`, and sweeps
`connectionToSession_` for every entry still pointing at it. -/
def SessionManager.cleanupExpiredSessions (m : SessionManager) (now : Nat) :
    SessionManager :=
  { sessions := fun sid =>
      match m.sessions sid with
      | some s => if s.isExpired now then none else some s
      | none => none
    sessionToConnection := fun sid =>
      match m.sessions sid with
      | some s => if s.isExpired now then none else m.sessionToConnection sid
      | none => m.sessionToConnection sid
    connectionToSession := fun c =>
      match m.connectionToSession c with
      | some sid =>
          match m.sessions sid with
          | some s => if s.isExpired now then none else some sid
          | none => some sid
      | none => none }

/-- Source `SessionManager::updateAll`: `update()` on every session, then the
expiry sweep. -/
def SessionManager.updateAll (m : SessionManager) (now : Nat) :
    SessionManager :=
  SessionManager.cleanupExpiredSessions
    { m with sessions := fun sid => (m.sessions sid).map (·.update now) }
    now

/-- Source `SessionManager::broadcastFrames`: for every session with a pending
frame and a bound connection, pulls the frame (mutating the session's
buffers), sends it, and on a non-empty payload marks the frame sent.
The transmitted bytes go to the transport and do not change the
registry, so the model keeps the per-session mutation only. -/
def SessionManager.broadcastFrames (m : SessionManager) : SessionManager :=
  { m with sessions := fun sid =>
      match m.sessions sid with
      | none => none
      | some s =>
          if s.hasNewFrame then
            match m.sessionToConnection sid with
            | none => some s
            | some _ =>
                let r := s.getFrameData
                if r.1 ≠ [] then some r.2.markFrameSent else some r.2
          else some s }

/-- Registry operations, claim C3's alphabet: session creation/removal,
the tick (`updateAll`) and the flush (`broadcastFrames`), plus the
message-dispatch entry points. -/
inductive RegOp where
  | create (ws : Conn) (newId : String) (now : Nat)
  | remove (ws : Conn)
  | tick (now : Nat)
  | flush
  | input (sid : String) (msg : ClientInputMessage) (now : Nat)
  | control (sid : String) (msg : ClientControlMessage)

def applyOp (m : SessionManager) : RegOp → SessionManager
  | .create ws newId now => m.createSession ws newId now
  | .remove ws => m.removeSession ws
  | .tick now => m.updateAll now
  | .flush => m.broadcastFrames
  | .input sid msg now => m.handleInput sid msg now
  | .control sid msg => m.handleControl sid msg

def applyOps (m : SessionManager) (ops : List RegOp) : SessionManager :=
  ops.foldl applyOp m

/-! ## Byte transform (`Compression.h` / `Compression.cpp`) -/

/-- Source `Compression::compress`: the source allocates a buffer of the input
size and `memcpy`s the input into it — a byte-for-byte copy. -/
def compress (data : List Nat) : List Nat := data

/-- Source `Compression::decompress`: likewise a byte-for-byte copy. -/
def decompress (data : List Nat) : List Nat := data

/-- Claim C10: `compress` and `decompress` both return a byte-for-byte
copy of their input, so both are the identity transform and
`decompress (compress d) = d` for every byte array `d`. -/
theorem claim10_compression_identity (d : List Nat) :
    compress d = d ∧ decompress d = d ∧ decompress (compress d) = d :=
  ⟨rfl, rfl, rfl⟩

/-- Claim C9: `SessionManager::handleControl` leaves the registry — all
three maps and every session — completely unchanged, for every session
id and every control message. -/
theorem claim9_control_no_effect (m : SessionManager) (sid : String)
    (control : ClientControlMessage) :
    m.handleControl sid control = m := by
  unfold SessionManager.handleControl
  cases m.sessions sid <;> rfl

theorem floatsToBytes_length (l : List Nat) :
    (floatsToBytes l).length = 4 * l.length := by
  induction l with
  | nil => simp [floatsToBytes]
  | cons f rest ih =>
      simp [floatsToBytes, writeFloat, writeUInt32, ih]
      omega

theorem Session.update_of_some (s : Session) (sim : FDTD3D) (now : Nat)
    (hsim : s.simulation = some sim) (hnu : s.needsUpdate = true) :
    s.update now = { s with simulation := some sim.step, hasNewFrame := true,
                            lastActivity := now, needsUpdate := false } := by
  simp [Session.update, Session.step, hsim, hnu]

theorem Session.getFrameData_of_pending (s : Session) (sim : FDTD3D)
    (hsim : s.simulation = some sim) (hnf : s.hasNewFrame = true) :
    s.getFrameData =
      (floatsToBytes sim.getElectricField ++ floatsToBytes sim.getMagneticField,
       { s with electricFieldBuffer := sim.getElectricField,
                magneticFieldBuffer := sim.getMagneticField }) := by
  simp [Session.getFrameData, hsim, hnf]

theorem Session.getFrameData_of_noframe (s : Session)
    (hnf : s.hasNewFrame = false) : s.getFrameData = ([], s) := by
  cases hs : s.simulation <;> simp [Session.getFrameData, hnf, hs]

theorem FDTD3D.texSize_step (sim : FDTD3D) : sim.step.texSize = sim.texSize :=
  rfl

theorem Session.update_of_false (s : Session) (now : Nat)
    (h : s.needsUpdate = false) : s.update now = s := by
  simp [Session.update, h]

theorem pendingPayload_length (sim : FDTD3D) :
    (floatsToBytes sim.getElectricField ++
      floatsToBytes sim.getMagneticField).length = 8 * sim.texSize := by
  simp [floatsToBytes_length, FDTD3D.getElectricField, FDTD3D.getMagneticField]
  omega

/-- Claim C4: `getFrameData` returns an empty payload (and leaves the
session unchanged) when the solver is uninitialized or no frame is
pending; after an `update()` that performs a step it returns a
non-empty payload; a further `getFrameData` before the next step is
empty again once `markFrameSent` was called in between, while without
`markFrameSent` the frame stays pending and is returned again. -/
theorem claim4_frame_delivery :
    (∀ s : Session, s.simulation = none → s.getFrameData = ([], s)) ∧
    (∀ s : Session, s.hasNewFrame = false → s.getFrameData = ([], s)) ∧
    (∀ (s : Session) (sim : FDTD3D) (now : Nat),
      s.simulation = some sim → 0 < sim.texSize → s.needsUpdate = true →
        ((s.update now).getFrameData).1 ≠ [] ∧
        ((s.update now).getFrameData).2.markFrameSent.getFrameData =
          ([], ((s.update now).getFrameData).2.markFrameSent) ∧
        (((s.update now).getFrameData).2.getFrameData).1 ≠ []) := by
  refine ⟨?_, ?_, ?_⟩
  · intro s h
    simp [Session.getFrameData, h]
  · intro s h
    exact Session.getFrameData_of_noframe s h
  · intro s sim now hsim hpos hnu
    rw [Session.update_of_some s sim now hsim hnu]
    rw [Session.getFrameData_of_pending _ sim.step rfl rfl]
    have hne : floatsToBytes sim.step.getElectricField ++
        floatsToBytes sim.step.getMagneticField ≠ [] := by
      have hl := pendingPayload_length sim.step
      rw [FDTD3D.texSize_step] at hl
      intro hemp
      rw [hemp] at hl
      simp at hl
      omega
    refine ⟨hne, ?_, ?_⟩
    · exact Session.getFrameData_of_noframe _ rfl
    · rw [Session.getFrameData_of_pending _ sim.step rfl rfl]
      exact hne

/-- Witness for C4: a concrete 1x1x1 session exercising all three
conjuncts. -/
theorem claim4_frame_delivery_witness :
    (((Session.new "w4" 0).initGrid 1 1 1).simulation =
        some (FDTD3D.init 1 1 1) ∧
      0 < (FDTD3D.init 1 1 1).texSize ∧
      ((Session.new "w4" 0).initGrid 1 1 1).needsUpdate = true) ∧
    (Session.new "w4" 0).getFrameData = ([], Session.new "w4" 0) ∧
    ((((Session.new "w4" 0).initGrid 1 1 1).update 7).getFrameData).1 ≠ [] :=
  ⟨⟨by decide, by decide, by decide⟩,
   claim4_frame_delivery.1 (Session.new "w4" 0) rfl,
   (claim4_frame_delivery.2.2 ((Session.new "w4" 0).initGrid 1 1 1)
      (FDTD3D.init 1 1 1) 7 (by decide) (by decide) (by decide)).1⟩

/-- Counterexample to claim C5 as stated: on a session whose solver was
never initialized (`Session::Session` does not create the solver;
`SessionManager` only does so via `initialize`) with `needsUpdate` set,
`update()` performs no solver step, does not set `hasNewFrame`, and
does not refresh `lastActivity` — yet it is a Session with
`needsUpdate` set, so the claim's "sets `hasNewFrame`, refreshes
`lastActivity`" fails on it. -/
theorem claim5_counterexample :
    (Session.new "c5" 0).needsUpdate = true ∧
    ((Session.new "c5" 0).update 99).hasNewFrame = false ∧
    ((Session.new "c5" 0).update 99).lastActivity = 0 ∧
    ((Session.new "c5" 0).update 99).solverSteps = 0 := by
  refine ⟨rfl, ?_, ?_, ?_⟩ <;>
    simp [Session.new, Session.update, Session.step, Session.solverSteps]

/-- Claim C5 (amended): if `needsUpdate` is set and the solver is
initialized, `update()` performs exactly one solver step, sets
`hasNewFrame`, refreshes `lastActivity` and clears `needsUpdate`; if
`needsUpdate` is set but the solver was never initialized, `update()`
only clears `needsUpdate`; if `needsUpdate` is clear, `update()`
changes nothing. -/
theorem claim5_update_contract :
    (∀ (s : Session) (sim : FDTD3D) (now : Nat),
      s.simulation = some sim → s.needsUpdate = true →
        s.update now =
          { s with simulation := some sim.step, hasNewFrame := true,
                   lastActivity := now, needsUpdate := false } ∧
        sim.step.stepCount = sim.stepCount + 1) ∧
    (∀ (s : Session) (now : Nat),
      s.simulation = none → s.needsUpdate = true →
        s.update now = { s with needsUpdate := false }) ∧
    (∀ (s : Session) (now : Nat),
      s.needsUpdate = false → s.update now = s) := by
  refine ⟨?_, ?_, ?_⟩
  · intro s sim now hsim hnu
    exact ⟨by simp [Session.update, Session.step, hsim, hnu], rfl⟩
  · intro s now hsim hnu
    simp [Session.update, Session.step, hsim, hnu]
  · intro s now hnu
    simp [Session.update, hnu]

/-- Witness for C5 (amended): the contract evaluated on a concrete
initialized session, a concrete uninitialized one, and a concrete
already-updated one. -/
theorem claim5_update_contract_witness :
    ((Session.new "w5" 3).initGrid 1 1 1).update 9 =
      { (Session.new "w5" 3).initGrid 1 1 1 with
        simulation := some (FDTD3D.init 1 1 1).step, hasNewFrame := true,
        lastActivity := 9, needsUpdate := false } ∧
    (Session.new "w5" 3).update 9 = { Session.new "w5" 3 with needsUpdate := false } ∧
    (((Session.new "w5" 3).initGrid 1 1 1).update 9).update 11 =
      ((Session.new "w5" 3).initGrid 1 1 1).update 9 :=
  ⟨(claim5_update_contract.1 ((Session.new "w5" 3).initGrid 1 1 1)
      (FDTD3D.init 1 1 1) 9 rfl rfl).1,
   claim5_update_contract.2.1 (Session.new "w5" 3) 9 rfl rfl,
   claim5_update_contract.2.2 (((Session.new "w5" 3).initGrid 1 1 1).update 9)
     11 rfl⟩

/-- Claim C7: on a freshly created session with the default
128x128x128 grid, the frame payload produced after a step is the
electric snapshot's bytes followed by the magnetic snapshot's bytes
(three float components per cell, four bytes per float), and its total
length is `128*128*128*3*4*2` bytes. -/
theorem claim7_frame_payload (sid : String) (t0 t1 : Nat) :
    ((((Session.new sid t0).initGrid 128 128 128).update t1).getFrameData).1 =
      floatsToBytes (FDTD3D.init 128 128 128).step.getElectricField ++
        floatsToBytes (FDTD3D.init 128 128 128).step.getMagneticField ∧
    (((((Session.new sid t0).initGrid 128 128 128).update t1).getFrameData).1).length =
      128 * 128 * 128 * 3 * 4 * 2 := by
  have h1 :
      ((((Session.new sid t0).initGrid 128 128 128).update t1).getFrameData).1 =
        floatsToBytes (FDTD3D.init 128 128 128).step.getElectricField ++
          floatsToBytes (FDTD3D.init 128 128 128).step.getMagneticField := by
    rw [Session.update_of_some _ (FDTD3D.init 128 128 128) t1 rfl rfl]
    rw [Session.getFrameData_of_pending _ (FDTD3D.init 128 128 128).step rfl rfl]
  refine ⟨h1, ?_⟩
  rw [h1, pendingPayload_length, FDTD3D.texSize_step]
  have : (FDTD3D.init 128 128 128).texSize = 6291456 := by
    simp [FDTD3D.init, FDTD3D.texSize]
  rw [this]

/-! ## Session lifetime operations (claim C8)

Session-level operations invoked on a live session by the manager:
`handleInput` (input dispatch), `update` (tick), `getFrameData` and
`markFrameSent` (flush). `Session::step` is only ever called from
`Session::update` in the source, and `SessionManager::handleControl`
touches no session (claim C9). -/

inductive SessOp where
  | input (x y z value : Nat) (now : Nat)
  | update (now : Nat)
  | getFrame
  | markSent

def applySessOp (s : Session) : SessOp → Session
  | .input x y z value now => s.handleInput x y z value now
  | .update now => s.update now
  | .getFrame => (s.getFrameData).2
  | .markSent => s.markFrameSent

def applySessOps (s : Session) (ops : List SessOp) : Session :=
  ops.foldl applySessOp s

def SessOp.isUpdate : SessOp → Bool
  | .update _ => true
  | _ => false

theorem needsUpdate_applySessOp (s : Session) (op : SessOp)
    (h : s.needsUpdate = false) : (applySessOp s op).needsUpdate = false := by
  cases op with
  | input x y z value now =>
      cases hs : s.simulation <;>
        simp [applySessOp, Session.handleInput, hs, h]
  | update now => simp [applySessOp, Session.update, h]
  | getFrame =>
      cases hs : s.simulation with
      | none => simp [applySessOp, Session.getFrameData, hs, h]
      | some sim =>
          cases hnf : s.hasNewFrame <;>
            simp [applySessOp, Session.getFrameData, hs, hnf, h]
  | markSent => simp [applySessOp, Session.markFrameSent, h]

theorem simulation_applySessOp_nonupdate (s : Session) (op : SessOp)
    (hop : op.isUpdate = false) :
    (applySessOp s op).simulation = s.simulation ∨
      (∃ sim x y z value, s.simulation = some sim ∧
        (applySessOp s op).simulation = some (sim.addSource x y z value)) := by
  cases op with
  | input x y z value now =>
      cases hs : s.simulation with
      | none => left; simp [applySessOp, Session.handleInput, hs]
      | some sim =>
          right
          exact ⟨sim, x, y, z, value, rfl,
            by simp [applySessOp, Session.handleInput, hs]⟩
  | update now => simp [SessOp.isUpdate] at hop
  | getFrame =>
      left
      cases hs : s.simulation with
      | none => simp [applySessOp, Session.getFrameData, hs]
      | some sim =>
          cases hnf : s.hasNewFrame <;>
            simp [applySessOp, Session.getFrameData, hs, hnf]
  | markSent => left; simp [applySessOp, Session.markFrameSent]

theorem needsUpdate_applySessOp_nonupdate (s : Session) (op : SessOp)
    (hop : op.isUpdate = false) :
    (applySessOp s op).needsUpdate = s.needsUpdate := by
  cases op with
  | input x y z value now =>
      cases hs : s.simulation <;> simp [applySessOp, Session.handleInput, hs]
  | update now => simp [SessOp.isUpdate] at hop
  | getFrame =>
      cases hs : s.simulation with
      | none => simp [applySessOp, Session.getFrameData, hs]
      | some sim =>
          cases hnf : s.hasNewFrame <;>
            simp [applySessOp, Session.getFrameData, hs, hnf]
  | markSent => simp [applySessOp, Session.markFrameSent]

theorem solverSteps_applySessOp_of_false (s : Session) (op : SessOp)
    (h : s.needsUpdate = false) :
    (applySessOp s op).solverSteps = s.solverSteps := by
  cases op with
  | input x y z value now =>
      cases hs : s.simulation <;>
        simp [applySessOp, Session.handleInput, Session.solverSteps,
          FDTD3D.addSource, hs]
  | update now => simp [applySessOp, Session.update, h]
  | getFrame =>
      cases hs : s.simulation with
      | none => simp [applySessOp, Session.getFrameData, Session.solverSteps, hs]
      | some sim =>
          cases hnf : s.hasNewFrame <;>
            simp [applySessOp, Session.getFrameData, Session.solverSteps,
              hs, hnf]
  | markSent => simp [applySessOp, Session.markFrameSent, Session.solverSteps]

theorem solverSteps_applySessOps_of_false (s : Session) (ops : List SessOp)
    (h : s.needsUpdate = false) :
    (applySessOps s ops).solverSteps = s.solverSteps := by
  induction ops generalizing s with
  | nil => rfl
  | cons op rest ih =>
      have h1 := needsUpdate_applySessOp s op h
      have h2 := solverSteps_applySessOp_of_false s op h
      calc (applySessOps (applySessOp s op) rest).solverSteps
          = (applySessOp s op).solverSteps := ih _ h1
        _ = s.solverSteps := h2

theorem solverSteps_applySessOps_of_true (s : Session) (sim : FDTD3D)
    (ops : List SessOp) (hsim : s.simulation = some sim)
    (hnu : s.needsUpdate = true) :
    (applySessOps s ops).solverSteps =
      sim.stepCount + (if ops.any SessOp.isUpdate then 1 else 0) := by
  induction ops generalizing s sim with
  | nil => simp [applySessOps, Session.solverSteps, hsim]
  | cons op rest ih =>
      by_cases hop : op.isUpdate = true
      · cases op with
        | update now =>
            have hupd := Session.update_of_some s sim now hsim hnu
            have hsteps : (applySessOps (applySessOp s (.update now)) rest).solverSteps
                = (applySessOp s (.update now)).solverSteps := by
              apply solverSteps_applySessOps_of_false
              simp [applySessOp, hupd]
            show (applySessOps (applySessOp s (.update now)) rest).solverSteps = _
            rw [hsteps]
            simp [applySessOp, hupd, Session.solverSteps, FDTD3D.step,
              SessOp.isUpdate]
        | input x y z value now => simp [SessOp.isUpdate] at hop
        | getFrame => simp [SessOp.isUpdate] at hop
        | markSent => simp [SessOp.isUpdate] at hop
      · have hop' : op.isUpdate = false := by
          cases hb : op.isUpdate
          · rfl
          · exact absurd hb hop
        have hnu' : (applySessOp s op).needsUpdate = true := by
          rw [needsUpdate_applySessOp_nonupdate s op hop', hnu]
        rcases simulation_applySessOp_nonupdate s op hop' with hkeep | hsrc
        · have := ih (applySessOp s op) sim (by rw [hkeep, hsim]) hnu'
          show (applySessOps (applySessOp s op) rest).solverSteps = _
          rw [this]
          simp [List.any_cons, hop']
        · obtain ⟨sim0, x, y, z, value, hs0, hs1⟩ := hsrc
          have heq : sim0 = sim := by
            rw [hs0] at hsim
            injection hsim
          subst heq
          have hrec := ih (applySessOp s op) (sim0.addSource x y z value) hs1 hnu'
          show (applySessOps (applySessOp s op) rest).solverSteps = _
          rw [hrec]
          simp [FDTD3D.addSource, List.any_cons, hop']

/-- Claim C8: no session operation ever sets `needsUpdate` back to true
after it is cleared (and `step` itself never touches it); an `update`
on a cleared flag is the identity, so every `update()` after the first
leaves the solver state, `hasNewFrame` and `lastActivity` unchanged;
consequently an initialized session performs exactly one solver step
over any operation sequence containing an `update`, and zero steps
otherwise. -/
theorem claim8_one_step_lifetime :
    (∀ (s : Session) (op : SessOp),
      s.needsUpdate = false → (applySessOp s op).needsUpdate = false) ∧
    (∀ (s : Session) (now : Nat), (s.step now).needsUpdate = s.needsUpdate) ∧
    (∀ (s : Session) (now : Nat), s.needsUpdate = false → s.update now = s) ∧
    (∀ (s : Session) (sim : FDTD3D) (ops : List SessOp),
      s.simulation = some sim → s.needsUpdate = true →
        (applySessOps s ops).solverSteps =
          sim.stepCount + (if ops.any SessOp.isUpdate then 1 else 0)) := by
  refine ⟨needsUpdate_applySessOp, ?_, ?_, solverSteps_applySessOps_of_true⟩
  · intro s now
    cases hs : s.simulation <;> simp [Session.step, hs]
  · intro s now h
    simp [Session.update, h]

/-- Witness for C8: a concrete initialized session run through an
input, two updates, a frame pull and a mark-sent performs exactly one
solver step; the no-update variant performs none. -/
theorem claim8_one_step_lifetime_witness :
    (applySessOps ((Session.new "w8" 0).initGrid 1 1 1)
        [SessOp.input 1 2 3 4 5, SessOp.update 6, SessOp.getFrame,
         SessOp.markSent, SessOp.update 7]).solverSteps = 0 + 1 ∧
    (applySessOps ((Session.new "w8" 0).initGrid 1 1 1)
        [SessOp.input 1 2 3 4 5, SessOp.getFrame]).solverSteps = 0 + 0 ∧
    (applySessOps (((Session.new "w8" 0).initGrid 1 1 1).update 2)
        [SessOp.update 9]).needsUpdate = false := by
  refine ⟨?_, ?_, ?_⟩
  · have h := claim8_one_step_lifetime.2.2.2
      ((Session.new "w8" 0).initGrid 1 1 1) (FDTD3D.init 1 1 1)
      [SessOp.input 1 2 3 4 5, SessOp.update 6, SessOp.getFrame,
       SessOp.markSent, SessOp.update 7] rfl rfl
    simpa using h
  · have h := claim8_one_step_lifetime.2.2.2
      ((Session.new "w8" 0).initGrid 1 1 1) (FDTD3D.init 1 1 1)
      [SessOp.input 1 2 3 4 5, SessOp.getFrame] rfl rfl
    simpa using h
  · exact claim8_one_step_lifetime.1
      (((Session.new "w8" 0).initGrid 1 1 1).update 2) (SessOp.update 9)
      (by decide)

/-! ## Registry consistency (claims C3 and C6) -/

/-- Strong three-map invariant: `connectionToSession` and
`sessionToConnection` are mutually inverse partial maps, and a session
id owns a `Session` exactly when it has a reverse connection entry. -/
def Inv (m : SessionManager) : Prop :=
  (∀ c sid, m.connectionToSession c = some sid →
      m.sessionToConnection sid = some c) ∧
  (∀ sid c, m.sessionToConnection sid = some c →
      m.connectionToSession c = some sid) ∧
  (∀ sid, (m.sessions sid).isSome = (m.sessionToConnection sid).isSome)

/-- Claim C3's consistency statement: a session id is a key of the
session map and of the session-to-connection map exactly when some
connection maps to it, with the reverse entry pointing back to that
connection. -/
def Consistent (m : SessionManager) : Prop :=
  ∀ sid, ((m.sessions sid).isSome = true ∧
      (m.sessionToConnection sid).isSome = true) ↔
    ∃ c, m.connectionToSession c = some sid ∧
      m.sessionToConnection sid = some c

/-- Freshness side conditions: a `create` uses a connection that is not
currently bound and a session id not currently in use (the server
creates one session per newly opened connection; id freshness is the
spec's uniqueness assumption, section 9). -/
def Fresh (m : SessionManager) : RegOp → Prop
  | .create ws newId _ =>
      m.connectionToSession ws = none ∧ m.sessions newId = none
  | _ => True

/-- A sequence of registry operations each applied to the state its
predecessors produced, with every `create` fresh. -/
def OkSeq : SessionManager → List RegOp → Prop
  | _, [] => True
  | m, op :: rest => Fresh m op ∧ OkSeq (applyOp m op) rest

theorem consistent_of_inv (m : SessionManager) (h : Inv m) : Consistent m := by
  obtain ⟨h1, h2, h3⟩ := h
  intro sid
  constructor
  · rintro ⟨-, hconn⟩
    rcases hc : m.sessionToConnection sid with _ | c
    · rw [hc] at hconn
      simp at hconn
    · exact ⟨c, h2 sid c hc, rfl⟩
  · rintro ⟨c, hc, hrev⟩
    refine ⟨?_, by simp [hrev]⟩
    rw [h3 sid, hrev]
    rfl

theorem inv_empty : Inv emptyManager := by
  refine ⟨?_, ?_, ?_⟩
  · intro c sid h
    simp [emptyManager] at h
  · intro sid c h
    simp [emptyManager] at h
  · intro sid
    rfl

theorem inv_create (m : SessionManager) (ws : Conn) (newId : String)
    (now : Nat) (h : Inv m) (hws : m.connectionToSession ws = none)
    (hid : m.sessions newId = none) :
    Inv (m.createSession ws newId now) := by
  obtain ⟨h1, h2, h3⟩ := h
  have hs2c : m.sessionToConnection newId = none := by
    have := h3 newId
    rw [hid] at this
    rcases hx : m.sessionToConnection newId with _ | c
    · rfl
    · rw [hx] at this
      simp at this
  refine ⟨?_, ?_, ?_⟩
  · intro c sid hc
    simp only [SessionManager.createSession, fupd] at hc ⊢
    by_cases hcw : c = ws
    · simp [hcw] at hc
      simp [hcw, ← hc]
    · simp [hcw] at hc
      have hne : sid ≠ newId := by
        intro he
        rw [he] at hc
        rw [h1 c newId hc] at hs2c
        simp at hs2c
      simp [hne]
      exact h1 c sid hc
  · intro sid c hc
    simp only [SessionManager.createSession, fupd] at hc ⊢
    by_cases hsn : sid = newId
    · simp [hsn] at hc
      simp [hsn, ← hc]
    · simp [hsn] at hc
      have hne : c ≠ ws := by
        intro he
        rw [he] at hc
        rw [h2 sid ws hc] at hws
        simp at hws
      simp [hne]
      exact h2 sid c hc
  · intro sid
    simp only [SessionManager.createSession, fupd]
    by_cases hsn : sid = newId
    · simp [hsn]
    · simp [hsn]
      exact h3 sid

theorem inv_remove (m : SessionManager) (ws : Conn) (h : Inv m) :
    Inv (m.removeSession ws) := by
  obtain ⟨h1, h2, h3⟩ := h
  unfold SessionManager.removeSession
  rcases hc : m.connectionToSession ws with _ | sid0
  · exact ⟨h1, h2, h3⟩
  · refine ⟨?_, ?_, ?_⟩
    · intro c sid hcc
      simp only [fupd] at hcc ⊢
      by_cases hcw : c = ws
      · simp [hcw] at hcc
      · simp [hcw] at hcc
        have hne : sid ≠ sid0 := by
          intro he
          rw [he] at hcc
          have e1 := h1 c sid0 hcc
          have e2 := h1 ws sid0 hc
          rw [e1] at e2
          simp at e2
          exact hcw e2
        simp [hne]
        exact h1 c sid hcc
    · intro sid c hcc
      simp only [fupd] at hcc ⊢
      by_cases hsn : sid = sid0
      · simp [hsn] at hcc
      · simp [hsn] at hcc
        have hne : c ≠ ws := by
          intro he
          rw [he] at hcc
          have e1 := h2 sid ws hcc
          rw [hc] at e1
          simp at e1
          exact hsn e1.symm
        simp [hne]
        exact h2 sid c hcc
    · intro sid
      simp only [fupd]
      by_cases hsn : sid = sid0
      · simp [hsn]
      · simp [hsn]
        exact h3 sid

theorem inv_cleanup (m : SessionManager) (now : Nat) (h : Inv m) :
    Inv (m.cleanupExpiredSessions now) := by
  obtain ⟨h1, h2, h3⟩ := h
  refine ⟨?_, ?_, ?_⟩
  · intro c sid hcc
    simp only [SessionManager.cleanupExpiredSessions] at hcc ⊢
    rcases hc : m.connectionToSession c with _ | sid1
    · simp [hc] at hcc
    · have e1 := h1 c sid1 hc
      rcases hs : m.sessions sid1 with _ | s
      · simp [hc, hs] at hcc
        subst hcc
        simp [hs, e1]
      · by_cases hexp : s.isExpired now = true
        · simp [hc, hs, hexp] at hcc
        · simp [hc, hs, hexp] at hcc
          subst hcc
          simp [hs, hexp, e1]
  · intro sid c hcc
    simp only [SessionManager.cleanupExpiredSessions] at hcc ⊢
    rcases hs : m.sessions sid with _ | s
    · simp [hs] at hcc
      have e1 := h2 sid c hcc
      simp [e1, hs]
    · by_cases hexp : s.isExpired now = true
      · simp [hs, hexp] at hcc
      · simp [hs, hexp] at hcc
        have e1 := h2 sid c hcc
        simp [e1, hs, hexp]
  · intro sid
    have h0 := h3 sid
    simp only [SessionManager.cleanupExpiredSessions]
    rcases hs : m.sessions sid with _ | s
    · rw [hs] at h0
      simp [hs, ← h0]
    · by_cases hexp : s.isExpired now = true
      · simp [hs, hexp]
      · rw [hs] at h0
        simp [hs, hexp, ← h0]

theorem inv_sessions_pointwise (m : SessionManager)
    (f : String → Option Session → Option Session)
    (hf : ∀ sid, (f sid (m.sessions sid)).isSome = (m.sessions sid).isSome)
    (h : Inv m) :
    Inv { m with sessions := fun sid => f sid (m.sessions sid) } := by
  obtain ⟨h1, h2, h3⟩ := h
  refine ⟨h1, h2, ?_⟩
  intro sid
  rw [hf sid]
  exact h3 sid

theorem inv_updateAll (m : SessionManager) (now : Nat) (h : Inv m) :
    Inv (m.updateAll now) := by
  unfold SessionManager.updateAll
  apply inv_cleanup
  exact inv_sessions_pointwise m (fun _ os => os.map (·.update now))
    (fun sid => by rcases m.sessions sid with _ | s <;> simp) h

theorem inv_broadcast (m : SessionManager) (h : Inv m) :
    Inv m.broadcastFrames := by
  obtain ⟨h1, h2, h3⟩ := h
  refine ⟨h1, h2, ?_⟩
  intro sid
  have h0 := h3 sid
  simp only [SessionManager.broadcastFrames]
  rcases hs : m.sessions sid with _ | s
  · rw [hs] at h0
    simp [hs, ← h0]
  · rw [hs] at h0
    rcases hc2 : m.sessionToConnection sid with _ | c
    · rw [hc2] at h0
      simp at h0
    · cases hnf : s.hasNewFrame <;> simp [hnf] <;> split <;> simp

theorem inv_input (m : SessionManager) (sid : String)
    (msg : ClientInputMessage) (now : Nat) (h : Inv m) :
    Inv (m.handleInput sid msg now) := by
  obtain ⟨h1, h2, h3⟩ := h
  unfold SessionManager.handleInput
  rcases hs : m.sessions sid with _ | s
  · exact ⟨h1, h2, h3⟩
  · refine ⟨h1, h2, ?_⟩
    intro sid1
    simp only [fupd]
    by_cases he : sid1 = sid
    · subst he
      simp
      have h0 := h3 sid1
      rw [hs] at h0
      exact h0.symm
    · simp [he]
      exact h3 sid1

theorem inv_control (m : SessionManager) (sid : String)
    (msg : ClientControlMessage) (h : Inv m) :
    Inv (m.handleControl sid msg) := by
  unfold SessionManager.handleControl
  rcases m.sessions sid with _ | s <;> exact h

theorem inv_applyOp (m : SessionManager) (op : RegOp) (h : Inv m)
    (hF : Fresh m op) : Inv (applyOp m op) := by
  cases op with
  | create ws newId now => exact inv_create m ws newId now h hF.1 hF.2
  | remove ws => exact inv_remove m ws h
  | tick now => exact inv_updateAll m now h
  | flush => exact inv_broadcast m h
  | input sid msg now => exact inv_input m sid msg now h
  | control sid msg => exact inv_control m sid msg h

/-- Counterexample to claim C3 as stated: `createSession` on a
connection that is already bound orphans the old binding — after two
`createSession` calls for connection `0`, session id `"a"` still owns a
`Session` and a reverse connection entry, but no connection maps to it,
so the three maps are inconsistent. -/
theorem claim3_counterexample :
    ¬ Consistent (applyOps emptyManager
        [RegOp.create 0 "a" 0, RegOp.create 0 "b" 0]) := by
  intro h
  have hmem := (h "a").mp ⟨by decide, by decide⟩
  obtain ⟨c, hc, -⟩ := hmem
  by_cases hc0 : c = 0
  · subst hc0
    exact absurd hc (by decide)
  · simp [applyOps, applyOp, SessionManager.createSession, fupd,
      emptyManager, hc0] at hc

/-- Claim C3 (amended): the three registry maps stay mutually
consistent — a session id keys the session map and the
session-to-connection map iff some connection maps to it, the reverse
entry pointing back to that connection — after every sequence of
`createSession` / `removeSession` / tick (`updateAll`) / flush
(`broadcastFrames`) / dispatch operations, provided each
`createSession` is invoked on a connection not currently bound and
with a session id not currently in use (as the server guarantees by
creating exactly one session per newly opened connection, ids being
fresh random values). -/
theorem claim3_registry_consistency (ops : List RegOp) (m : SessionManager)
    (hInv : Inv m) (hOk : OkSeq m ops) :
    Inv (applyOps m ops) ∧ Consistent (applyOps m ops) := by
  induction ops generalizing m with
  | nil => exact ⟨hInv, consistent_of_inv m hInv⟩
  | cons op rest ih =>
      obtain ⟨hF, hOk'⟩ := hOk
      exact ih (applyOp m op) (inv_applyOp m op hInv hF) hOk'

/-- Witness for C3 (amended): a concrete create/input/tick/flush/remove
sequence from the empty registry. -/
theorem claim3_registry_consistency_witness :
    Consistent (applyOps emptyManager
      [RegOp.create 0 "a" 0, RegOp.input "a" ⟨1, 2, 3, 4, 5⟩ 1,
       RegOp.tick 2, RegOp.flush, RegOp.remove 0]) :=
  (claim3_registry_consistency
    [RegOp.create 0 "a" 0, RegOp.input "a" ⟨1, 2, 3, 4, 5⟩ 1,
     RegOp.tick 2, RegOp.flush, RegOp.remove 0]
    emptyManager inv_empty
    ⟨⟨rfl, rfl⟩, trivial, trivial, trivial, trivial, trivial⟩).2

/-- Counterexample to claim C6 as stated: a session whose `needsUpdate`
flag is still set (one never yet ticked) has `lastActivity` refreshed
by the tick's update phase before the expiry sweep runs, so it survives
`updateAll` even though its `lastActivity` was more than 30 minutes in
the past when the tick began. -/
theorem claim6_counterexample :
    (emptyManager.createSession 0 "c6" 0).sessions "c6" =
      some ((Session.new "c6" 0).initGrid 128 128 128) ∧
    ((Session.new "c6" 0).initGrid 128 128 128).lastActivity = 0 ∧
    (SESSION_TIMEOUT : Int) <
      ((2 * SESSION_TIMEOUT : Nat) : Int) -
        (((Session.new "c6" 0).initGrid 128 128 128).lastActivity : Int) ∧
    (((emptyManager.createSession 0 "c6" 0).updateAll
        (2 * SESSION_TIMEOUT)).sessions "c6").isSome = true :=
  ⟨rfl, rfl, by decide, rfl⟩

/-- Claim C6 (amended): `isExpired()` is true iff `now - lastActivity`
exceeds 30 minutes; and every session whose `needsUpdate` flag is
already clear and whose `lastActivity` is older than 30 minutes is
removed by the next tick (`updateAll`), the removal erasing it from all
three registry maps — including any `connectionToSession` entries still
pointing at it — even if its connection was never closed. (A session
still awaiting its first update has `lastActivity` refreshed by the
tick's update phase and survives; see the counterexample.) -/
theorem claim6_expiry_sweep :
    (∀ (s : Session) (now : Nat),
      s.isExpired now = true ↔
        (30 * 60 * 1000 : Int) < (now : Int) - (s.lastActivity : Int)) ∧
    (∀ (m : SessionManager) (sid : String) (s : Session) (now : Nat),
      m.sessions sid = some s → s.needsUpdate = false →
      (SESSION_TIMEOUT : Int) < (now : Int) - (s.lastActivity : Int) →
        (m.updateAll now).sessions sid = none ∧
        (m.updateAll now).sessionToConnection sid = none ∧
        ∀ c, (m.updateAll now).connectionToSession c ≠ some sid) := by
  constructor
  · intro s now
    simp [Session.isExpired, SESSION_TIMEOUT]
  · intro m sid s now hsid hnu hlate
    have hupd : s.update now = s := Session.update_of_false s now hnu
    have hexp : s.isExpired now = true := by
      simp [Session.isExpired]
      exact hlate
    refine ⟨?_, ?_, ?_⟩
    · simp [SessionManager.updateAll, SessionManager.cleanupExpiredSessions,
        hsid, hupd, hexp]
    · simp [SessionManager.updateAll, SessionManager.cleanupExpiredSessions,
        hsid, hupd, hexp]
    · intro c
      rcases hcc : m.connectionToSession c with _ | sid1
      · simp [SessionManager.updateAll, SessionManager.cleanupExpiredSessions,
          hcc]
      · by_cases he : sid1 = sid
        · subst he
          simp [SessionManager.updateAll,
            SessionManager.cleanupExpiredSessions, hcc, hsid, hupd, hexp]
        · rcases hs1 : m.sessions sid1 with _ | s1
          · simp [SessionManager.updateAll,
              SessionManager.cleanupExpiredSessions, hcc, hs1, he]
          · by_cases hx : (s1.update now).isExpired now = true
            · simp [SessionManager.updateAll,
                SessionManager.cleanupExpiredSessions, hcc, hs1, hx]
            · simp [SessionManager.updateAll,
                SessionManager.cleanupExpiredSessions, hcc, hs1, hx, he]

/-- Witness for C6 (amended): a concrete already-ticked session (so
`needsUpdate` is clear, `lastActivity = 0`) is purged from all three
maps by a tick 60 minutes later. -/
theorem claim6_expiry_sweep_witness :
    (((emptyManager.createSession 0 "w6" 0).updateAll 0).sessions "w6" =
        some (((Session.new "w6" 0).initGrid 128 128 128).update 0) ∧
      (((Session.new "w6" 0).initGrid 128 128 128).update 0).needsUpdate =
        false ∧
      (SESSION_TIMEOUT : Int) < ((2 * SESSION_TIMEOUT : Nat) : Int) -
        ((((Session.new "w6" 0).initGrid 128 128 128).update 0).lastActivity
          : Int)) ∧
    (((emptyManager.createSession 0 "w6" 0).updateAll 0).updateAll
        (2 * SESSION_TIMEOUT)).sessions "w6" = none ∧
    (((emptyManager.createSession 0 "w6" 0).updateAll 0).updateAll
        (2 * SESSION_TIMEOUT)).sessionToConnection "w6" = none ∧
    (((emptyManager.createSession 0 "w6" 0).updateAll 0).updateAll
        (2 * SESSION_TIMEOUT)).connectionToSession 0 ≠ some "w6" := by
  have h := claim6_expiry_sweep.2 ((emptyManager.createSession 0 "w6" 0).updateAll 0)
    "w6" (((Session.new "w6" 0).initGrid 128 128 128).update 0)
    (2 * SESSION_TIMEOUT) rfl rfl (by decide)
  exact ⟨⟨rfl, rfl, by decide⟩, h.1, h.2.1, h.2.2 0⟩

end EFV
